import Mathlib

/-!
Shallow embedding of the `cutlery` process-duplication library.

The embedding models the public `Child` handle of `src/lib.rs` and the two
platform backends (`src/impl/unix.rs`, `src/impl/win.rs`).  OS syscalls are
modelled as oracles: each operation takes the outcome(s) the OS would have
produced as explicit arguments, and returns the library's result together
with the updated handle state and the number of backend invocations it
performed (so that claims of the form "performs no OS interaction" are
expressible as a zero call count).
-/

namespace Cutlery

/-- Models `std::io::ErrorKind` as far as the library inspects it:
only the `Interrupted` case is distinguished; every other kind is `other n`. -/
inductive EKind where
  | interrupted
  | other (n : Nat)
  deriving DecidableEq, Repr

/-- Models `std::io::Error`: an error kind plus the optional raw OS errno
(`raw_os_error()`). -/
structure OsError where
  kind : EKind
  raw : Option Int
  deriving DecidableEq, Repr

/-- Models the `Child` struct of `src/lib.rs`: the OS pid, the optional
platform descriptor (always `none` on the unix backend in the default build,
where `open_pidfd` is the unsupported stub), and the cached exit status. -/
structure Child where
  pid : Nat
  descriptor : Option Unit
  status : Option Int
  deriving DecidableEq, Repr

/-- `Child::wait` (src/lib.rs:130-139).  `bw` is the outcome the backend
`r#impl::wait` would produce if it were invoked.  Returns the result, the
updated handle, and the number of backend/OS invocations performed. -/
def Child.wait (c : Child) (bw : Except OsError Int) :
    Except OsError Int × Child × Nat :=
  match c.status with
  | some status => (Except.ok status, c, 0)
  | none =>
    match bw with
    | Except.ok status => (Except.ok status, { c with status := some status }, 1)
    | Except.error e => (Except.error e, c, 1)

/-- `Child::try_wait` (src/lib.rs:156-164).  `bt` is the outcome the backend
`r#impl::try_wait` would produce if it were invoked.  On backend success the
source assigns `self.status = r#impl::try_wait(self)?` and returns it. -/
def Child.tryWait (c : Child) (bt : Except OsError (Option Int)) :
    Except OsError (Option Int) × Child × Nat :=
  match c.status with
  | some status => (Except.ok (some status), c, 0)
  | none =>
    match bt with
    | Except.ok st => (Except.ok st, { c with status := st }, 1)
    | Except.error e => (Except.error e, c, 1)

/-- `Child::kill` (src/lib.rs:169-179).  `bk` is the outcome the backend
`r#impl::kill` would produce if it were invoked. -/
def Child.kill (c : Child) (bk : Except OsError Unit) :
    Except OsError Unit × Child × Nat :=
  match c.status with
  | some _ => (Except.ok (), c, 0)
  | none => (bk, c, 1)

/-- `libc::EINTR` on Linux. -/
def EINTR : Int := 4

/-- `libc::ESRCH` on Linux. -/
def ESRCH : Int := 3

/-- `is_interrupted` (src/impl/unix.rs:144-146). -/
def is_interrupted (e : OsError) : Bool :=
  e.kind == EKind.interrupted || e.raw == some EINTR

/-- One invocation of `libc::waitpid` (or, through `cvt_r`, of any
`IsMinusOne`-returning status-query syscall): the raw return value, the
status word written to the out-parameter, and the `errno`-derived error that
`Error::last_os_error()` would yield if the return value is -1. -/
structure WaitpidCall where
  retval : Int
  statusWord : Nat
  errno : OsError
  deriving DecidableEq, Repr

/-- `cvt` (src/impl/unix.rs:126-132) applied to one `waitpid` invocation:
-1 means the error is in `errno`; any other value is `Ok`-wrapped together
with the written status word. -/
def cvtCall (c : WaitpidCall) : Except OsError (Int × Nat) :=
  if c.retval = -1 then Except.error c.errno else Except.ok (c.retval, c.statusWord)

/-- `cvt_r` (src/impl/unix.rs:135-142) over a finite trace of successive
syscall outcomes: loop, retrying while `cvt` yields an interrupted error,
returning the first other outcome.  `none` models a trace too short for the
loop to return within it. -/
def cvt_r : List WaitpidCall → Option (Except OsError (Int × Nat))
  | [] => none
  | c :: rest =>
    match cvtCall c with
    | Except.error e => if is_interrupted e then cvt_r rest else some (Except.error e)
    | Except.ok v => some (Except.ok v)

/-- The cast of a `Nat` to a Rust `i8` (two's complement, low 8 bits). -/
def as_i8 (n : Nat) : Int :=
  if n % 256 < 128 then ((n % 256 : Nat) : Int) else ((n % 256 : Nat) : Int) - 256

/-- `libc::WIFEXITED` on Linux: `(status & 0x7f) == 0`.  On naturals,
`& 0x7f` is `% 128`. -/
def WIFEXITED (s : Nat) : Bool := s % 128 == 0

/-- `libc::WEXITSTATUS` on Linux: `(status >> 8) & 0xff`, i.e.
`status / 256 % 256` on naturals. -/
def WEXITSTATUS (s : Nat) : Nat := s / 256 % 256

/-- `libc::WIFSIGNALED` on Linux: `((status & 0x7f) + 1) as i8 >> 1 > 0`,
with `>>` the arithmetic shift on `i8`, i.e. floor division by 2. -/
def WIFSIGNALED (s : Nat) : Bool := decide (0 < (as_i8 (s % 128 + 1)).fdiv 2)

/-- `libc::WTERMSIG` on Linux: `status & 0x7f`. -/
def WTERMSIG (s : Nat) : Nat := s % 128

/-- `wait_impl` (src/impl/unix.rs:43-74) in the default build (the
`pidfd`-feature branch is compiled out, so `child.descriptor` is `none` and
the `waitpid` path is taken): run `waitpid` under `cvt_r`; a returned pid of
0 means not-yet-exited (`WNOHANG` polling); otherwise decode the status word.
`calls` is the trace of syscall outcomes consumed by the retry loop; the
`FLAGS` const generic (0 for `wait`, `WNOHANG` for `try_wait`) is forwarded
to the OS and does not affect the decoding. -/
def wait_impl (FLAGS : Int) (calls : List WaitpidCall) :
    Option (Except OsError (Option Int)) :=
  match cvt_r calls with
  | none => none
  | some (Except.error e) => some (Except.error e)
  | some (Except.ok (pid, statusWord)) =>
    if pid = 0 then some (Except.ok none)
    else if WIFEXITED statusWord then
      some (Except.ok (some (WEXITSTATUS statusWord : Int)))
    else if WIFSIGNALED statusWord then
      some (Except.ok (some (WTERMSIG statusWord : Int)))
    else
      some (Except.ok (some (-1)))

/-- `libc::WNOHANG` on Linux. -/
def WNOHANG : Int := 1

/-- `wait` (src/impl/unix.rs:76-78): `wait_impl::<0>` with the absent case
mapped to -1 by `unwrap_or(-1)`. -/
def wait_unix (calls : List WaitpidCall) : Option (Except OsError Int) :=
  (wait_impl 0 calls).map (fun r => r.map (fun st => st.getD (-1)))

/-- `try_wait` (src/impl/unix.rs:80-82): `wait_impl::<WNOHANG>`. -/
def try_wait_unix (calls : List WaitpidCall) :
    Option (Except OsError (Option Int)) :=
  wait_impl WNOHANG calls

/-- Result of `fork` (src/lib.rs `Fork`): parent with a handle, or child. -/
inductive ForkOutcome where
  | parentProc (c : Child)
  | childProc
  deriving DecidableEq, Repr

/-- `fork` (src/impl/unix.rs:27-41) in the default build: `cvt` the raw
`libc::fork` return value `r` (with `e` the `errno` error if `r = -1`);
0 means this is the child; otherwise build a `Child` with that pid, the
descriptor from `open_pidfd(pid).ok()` (the unsupported stub, hence `none`),
and no cached status. -/
def fork_unix (r : Int) (e : OsError) : Except OsError ForkOutcome :=
  if r = -1 then Except.error e
  else if r = 0 then Except.ok ForkOutcome.childProc
  else Except.ok (ForkOutcome.parentProc { pid := r.toNat, descriptor := none, status := none })

/-- One invocation of the `libc::kill` syscall: the raw return value and the
`errno`-derived error if it is -1. -/
structure KillCall where
  retval : Int
  errno : OsError
  deriving DecidableEq, Repr

/-- `kill_impl` (src/impl/unix.rs:84-100) in the default build (no pidfd):
`cvt` the `libc::kill` return value, then discard it. -/
def kill_impl (kc : KillCall) : Except OsError Unit :=
  if kc.retval = -1 then Except.error kc.errno else Except.ok ()

/-- `kill` (src/impl/unix.rs:102-108): absorb an `ESRCH` error from
`kill_impl` (process already exited) as success; propagate anything else. -/
def kill_unix (kc : KillCall) : Except OsError Unit :=
  match kill_impl kc with
  | Except.ok () => Except.ok ()
  | Except.error err =>
    if err.raw == some ESRCH then Except.ok () else Except.error err

/-- Models `windows::core::Error` as far as the backend inspects it: the
HRESULT returned by `err.code()`. -/
structure WinError where
  code : Int
  deriving DecidableEq, Repr

/-- `ERROR_ACCESS_DENIED.to_hresult()`: Win32 error 5 mapped to HRESULT
`0x80070005` (written here as the unsigned 32-bit value). -/
def ACCESS_DENIED_HRESULT : Int := 0x80070005

/-- Outcome of `WaitForSingleObject` as inspected by the backend:
`WAIT_OBJECT_0`, `WAIT_TIMEOUT`, or anything else (with the error
`Error::last_os_error()` would then yield). -/
inductive WaitEvt where
  | object0
  | timeout0
  | failed (e : WinError)
  deriving DecidableEq, Repr

/-- `try_wait` (src/impl/win.rs:107-125): poll the process handle with a
zero timeout (`ev` is the `WaitForSingleObject` outcome); on `WAIT_TIMEOUT`
the process has not exited; on `WAIT_OBJECT_0` read the exit code via
`GetExitCodeProcess` (`gec` is its outcome, the code being a `u32`). -/
def try_wait_win (ev : WaitEvt) (gec : Except WinError Nat) :
    Except WinError (Option Int) :=
  match ev with
  | WaitEvt.object0 =>
    match gec with
    | Except.ok code => Except.ok (some (code : Int))
    | Except.error e => Except.error e
  | WaitEvt.timeout0 => Except.ok none
  | WaitEvt.failed e => Except.error e

/-- Rust's `Result::is_err`. -/
def is_err {α β : Type} : Except α β → Bool
  | Except.error _ => true
  | Except.ok _ => false

/-- `kill` (src/impl/win.rs:127-138): `tp` is the `TerminateProcess`
outcome.  On failure, the error is returned unless it is
`ERROR_ACCESS_DENIED` and the subsequent `try_wait(child)` call is not an
error (`if err.code() != ERROR_ACCESS_DENIED.to_hresult() ||
try_wait(child).is_err() { return Err(err) }`). -/
def kill_win (tp : Except WinError Unit) (ev : WaitEvt)
    (gec : Except WinError Nat) : Except WinError Unit :=
  match tp with
  | Except.ok _ => Except.ok ()
  | Except.error err =>
    if err.code ≠ ACCESS_DENIED_HRESULT ∨ is_err (try_wait_win ev gec) = true then
      Except.error err
    else
      Except.ok ()

/-- `OBJ_INHERIT` (0x2) from phnt. -/
def OBJ_INHERIT : Nat := 2

/-- `OBJ_PROTECT_CLOSE` (0x1) from phnt. -/
def OBJ_PROTECT_CLOSE : Nat := 1

/-- One entry of the process handle-table snapshot
(`PROCESS_HANDLE_TABLE_ENTRY_INFO`) as used by the backend: the handle value
and its `HandleAttributes`. -/
structure HandleEntry where
  value : Nat
  attrs : Nat
  deriving DecidableEq, Repr

/-- The per-handle flag state written by `NtSetInformationObject` with
`OBJECT_HANDLE_FLAG_INFORMATION`: `Inherit` and `ProtectFromClose` are the
`u8` values the source casts the masked attributes to. -/
structure HandleFlags where
  Inherit : Nat
  ProtectFromClose : Nat
  deriving DecidableEq, Repr

/-- `make_inheritable` (src/impl/win.rs:174-190): the flags written for
`handle` are computed from `attrs = handle.HandleAttributes |
(force_inherit ? OBJ_INHERIT : 0)` as `Inherit = (attrs & OBJ_INHERIT) as u8`
and `ProtectFromClose = (attrs & OBJ_PROTECT_CLOSE) as u8`. -/
def make_inheritable (h : HandleEntry) (force_inherit : Bool) : HandleFlags :=
  let attrs := h.attrs ||| (if force_inherit then OBJ_INHERIT else 0)
  { Inherit := (attrs &&& OBJ_INHERIT) % 256
    ProtectFromClose := (attrs &&& OBJ_PROTECT_CLOSE) % 256 }

/-- The OS handle-flag table: current flag state per handle value. -/
abbrev HandleTable : Type := Nat → HandleFlags

/-- One `for handle in &handles { make_inheritable(handle, b) }` loop of
`fork` (src/impl/win.rs:38-40 and 60-62), as its effect on the OS table. -/
def set_all (handles : List HandleEntry) (force_inherit : Bool)
    (t : HandleTable) : HandleTable :=
  handles.foldl
    (fun tbl h => fun v =>
      if v = h.value then make_inheritable h force_inherit else tbl v) t

/-- The three ways `NtCreateUserProcess` comes back in `fork`
(src/impl/win.rs:42-86): the distinguished `STATUS_PROCESS_CLONED`, an error
status, or success in the original process (with the new process's id). -/
inductive CreateOutcome where
  | cloned
  | errorStatus (code : Int)
  | created (pid : Nat)
  deriving DecidableEq, Repr

/-- The branch of the Windows `fork` taken after the handle restore. -/
inductive ForkWin where
  | childBranch
  | errBranch (code : Int)
  | parentBranch (c : Child)
  deriving DecidableEq, Repr

/-- `fork` (src/impl/win.rs:30-87), tracking the OS handle-flag table:
snapshot the handles, mark every snapshotted handle inheritable, invoke
`NtCreateUserProcess` (its outcome is `outcome`), then restore every
handle's flags from its snapshotted attributes — the restore loop runs
before the status is even inspected, hence on all three branches — and
finally branch on the status. -/
def fork_win (handles : List HandleEntry) (outcome : CreateOutcome)
    (t0 : HandleTable) : HandleTable × ForkWin :=
  let t1 := set_all handles true t0
  let t2 := set_all handles false t1
  match outcome with
  | CreateOutcome.cloned => (t2, ForkWin.childBranch)
  | CreateOutcome.errorStatus code => (t2, ForkWin.errBranch code)
  | CreateOutcome.created pid =>
    (t2, ForkWin.parentBranch { pid := pid, descriptor := some (), status := none })

/-- Claim C1: for every `Child` handle, once `status` has been populated by a
prior successful `wait` (first conjunct) or `try_wait` (second conjunct), a
subsequent `wait()` returns the identical cached value, leaves the handle
unchanged, and performs zero backend/OS invocations — in particular it returns
`ok` no matter what outcome `bw2` the OS would have produced, so it cannot
produce a new error. -/
theorem wait_twice_cached (c : Child) (bw1 bw2 : Except OsError Int)
    (bt : Except OsError (Option Int)) (s : Int) :
    ((c.wait bw1).1 = Except.ok s →
      (c.wait bw1).2.1.wait bw2 = (Except.ok s, (c.wait bw1).2.1, 0)) ∧
    ((c.tryWait bt).1 = Except.ok (some s) →
      (c.tryWait bt).2.1.wait bw2 = (Except.ok s, (c.tryWait bt).2.1, 0)) := by
  constructor
  · intro h
    match hc : c.status with
    | some t =>
      simp [Child.wait, hc] at h ⊢
      exact h
    | none =>
      match hb : bw1 with
      | Except.ok v =>
        simp [Child.wait, hc] at h ⊢
        exact h
      | Except.error e =>
        simp [Child.wait, hc] at h
  · intro h
    match hc : c.status with
    | some t =>
      simp [Child.tryWait, Child.wait, hc] at h ⊢
      exact h
    | none =>
      match hb : bt with
      | Except.ok none =>
        simp [Child.tryWait, hc] at h
      | Except.ok (some v) =>
        simp [Child.tryWait, Child.wait, hc] at h ⊢
        exact h
      | Except.error e =>
        simp [Child.tryWait, hc] at h

/-- Witness for C1 at concrete inputs: a fresh handle whose first `wait`
returned 7; the second `wait` is fed an OS error yet still returns `ok 7`
with zero OS invocations. -/
theorem wait_twice_cached_witness :
    (Child.wait ⟨1234, none, none⟩ (Except.ok 7)).2.1.wait
        (Except.error ⟨EKind.other 0, some 5⟩) =
      (Except.ok 7, (Child.wait ⟨1234, none, none⟩ (Except.ok 7)).2.1, 0) :=
  (wait_twice_cached ⟨1234, none, none⟩ (Except.ok 7)
      (Except.error ⟨EKind.other 0, some 5⟩) (Except.ok (some 7)) 7).1 rfl

/-- Claim C2: the `status` field is written at most once.  `kill` never
modifies it (first conjunct); a handle freshly produced by `fork` has it
absent (second conjunct, see `fork_unix` below); and once it is `some v`,
`wait`, `try_wait` and `kill` all leave it equal to `some v` (remaining
conjuncts), for every possible backend outcome. -/
theorem status_write_once (c : Child) (v : Int) (bw : Except OsError Int)
    (bt : Except OsError (Option Int)) (bk : Except OsError Unit) :
    ((c.kill bk).2.1.status = c.status) ∧
    (∀ r e c2, fork_unix r e = Except.ok (ForkOutcome.parentProc c2) →
      c2.status = none) ∧
    (c.status = some v →
      (c.wait bw).2.1.status = some v ∧
      (c.tryWait bt).2.1.status = some v ∧
      (c.kill bk).2.1.status = some v) := by
  refine ⟨?_, ?_, ?_⟩
  · cases hc : c.status <;> simp [Child.kill, hc]
  · intro r e c2 h
    unfold fork_unix at h
    split_ifs at h
    · exact ForkOutcome.noConfusion (Except.ok.inj h)
    · exact (ForkOutcome.parentProc.inj (Except.ok.inj h)) ▸ rfl
  · intro h
    refine ⟨?_, ?_, ?_⟩ <;> simp [Child.wait, Child.tryWait, Child.kill, h]

/-- Witness for C2 at a concrete handle with cached status 3 and a concrete
fork returning pid 5. -/
theorem status_write_once_witness :
    ((Child.mk 5 none none).status = none) ∧
    ((Child.wait ⟨9, none, some 3⟩ (Except.ok 8)).2.1.status = some 3 ∧
      (Child.tryWait ⟨9, none, some 3⟩ (Except.ok none)).2.1.status = some 3 ∧
      (Child.kill ⟨9, none, some 3⟩ (Except.ok ())).2.1.status = some 3) :=
  ⟨(status_write_once ⟨9, none, some 3⟩ 3 (Except.ok 8) (Except.ok none)
      (Except.ok ())).2.1 5 ⟨EKind.other 0, none⟩ ⟨5, none, none⟩ rfl,
    (status_write_once ⟨9, none, some 3⟩ 3 (Except.ok 8) (Except.ok none)
      (Except.ok ())).2.2 rfl⟩

/-- Claim C3: on a handle whose `status` is already populated, `kill()`
returns success immediately, leaves the handle unchanged, and performs zero
backend/OS invocations, regardless of what the backend kill would have
produced. -/
theorem kill_cached_noop (c : Child) (bk : Except OsError Unit) (s : Int)
    (h : c.status = some s) :
    c.kill bk = (Except.ok (), c, 0) := by
  simp [Child.kill, h]

/-- Witness for C3 at a concrete handle whose status is cached as 0, with
the backend oracle set to an error that is therefore never surfaced. -/
theorem kill_cached_noop_witness :
    Child.kill ⟨42, none, some 0⟩ (Except.error ⟨EKind.other 1, some 13⟩) =
      (Except.ok (), ⟨42, none, some 0⟩, 0) :=
  kill_cached_noop ⟨42, none, some 0⟩ (Except.error ⟨EKind.other 1, some 13⟩) 0 rfl

/-- Claim C8: `try_wait` returns the cached status wrapped as present when it
is cached, with no backend call (first conjunct); otherwise it performs
exactly one backend call and: returns absent with `status` still absent when
the process has not yet exited (second conjunct), caches and returns the
status when one was obtained (third conjunct), and propagates a backend error
without caching anything (fourth conjunct). -/
theorem try_wait_cache (c : Child) (s v : Int) (e : OsError)
    (bt : Except OsError (Option Int)) :
    (c.status = some s → c.tryWait bt = (Except.ok (some s), c, 0)) ∧
    (c.status = none →
      c.tryWait (Except.ok none) = (Except.ok none, c, 1)) ∧
    (c.status = none →
      c.tryWait (Except.ok (some v)) =
        (Except.ok (some v), { c with status := some v }, 1)) ∧
    (c.status = none →
      c.tryWait (Except.error e) = (Except.error e, c, 1)) := by
  refine ⟨?_, ?_, ?_, ?_⟩ <;> intro h
  · simp [Child.tryWait, h]
  · cases c with
    | mk pid d st => cases h; simp [Child.tryWait]
  · simp [Child.tryWait, h]
  · simp [Child.tryWait, h]

/-- Witness for C8 at concrete handles: one with cached status 5, and one
uncached exercised on all three backend outcomes. -/
theorem try_wait_cache_witness :
    (Child.tryWait ⟨1, none, some 5⟩ (Except.ok none) =
      (Except.ok (some 5), ⟨1, none, some 5⟩, 0)) ∧
    (Child.tryWait ⟨2, none, none⟩ (Except.ok none) =
      (Except.ok none, ⟨2, none, none⟩, 1)) ∧
    (Child.tryWait ⟨2, none, none⟩ (Except.ok (some 9)) =
      (Except.ok (some 9), ⟨2, none, some 9⟩, 1)) ∧
    (Child.tryWait ⟨2, none, none⟩ (Except.error ⟨EKind.other 0, some 10⟩) =
      (Except.error ⟨EKind.other 0, some 10⟩, ⟨2, none, none⟩, 1)) :=
  ⟨(try_wait_cache ⟨1, none, some 5⟩ 5 9 ⟨EKind.other 0, some 10⟩
      (Except.ok none)).1 rfl,
    (try_wait_cache ⟨2, none, none⟩ 5 9 ⟨EKind.other 0, some 10⟩
      (Except.ok none)).2.1 rfl,
    (try_wait_cache ⟨2, none, none⟩ 5 9 ⟨EKind.other 0, some 10⟩
      (Except.ok none)).2.2.1 rfl,
    (try_wait_cache ⟨2, none, none⟩ 5 9 ⟨EKind.other 0, some 10⟩
      (Except.ok none)).2.2.2 rfl⟩

/-- Helper: a status word `n` with `1 ≤ n < 127` (a termination signal in the
low seven bits, not the `0x7f` stop marker) satisfies `WIFSIGNALED`. -/
lemma wifsignaled_of_sig (n : Nat) (h1 : 1 ≤ n) (h2 : n < 127) :
    WIFSIGNALED n = true := by
  unfold WIFSIGNALED as_i8
  have hm : n % 128 + 1 = n + 1 := by omega
  rw [hm]
  rw [if_pos (by omega)]
  simp only [decide_eq_true_eq]
  have h256 : (n + 1) % 256 = n + 1 := by omega
  rw [h256]
  have hfd : ((n + 1 : Nat) : Int).fdiv 2 = (((n + 1) / 2 : Nat) : Int) := rfl
  rw [hfd]
  have : 0 < (n + 1) / 2 := by omega
  exact_mod_cast this

/-- Claim C6: on the unix backend, whenever `wait_impl` (hence both `wait`
and `try_wait`) observes termination via `waitpid` (return value `pid`,
neither the -1 error sentinel nor the 0 still-running indication), a normal
exit with code `c` (status word `c << 8`) yields `c` as the status value,
and termination by signal `n` (status word `n` in the low seven bits) yields
the signal number `n`, both through the same integer channel. -/
theorem wait_impl_exit_signal (pid : Int) (c n : Nat) (e : OsError) (F : Int)
    (hp1 : pid ≠ -1) (hp0 : pid ≠ 0) (hc : c < 256)
    (hn1 : 1 ≤ n) (hn2 : n < 127) :
    wait_impl F [⟨pid, c * 256, e⟩] = some (Except.ok (some (c : Int))) ∧
    wait_impl F [⟨pid, n, e⟩] = some (Except.ok (some (n : Int))) := by
  constructor
  · have hE : WIFEXITED (c * 256) = true := by
      simp only [WIFEXITED, beq_iff_eq]
      omega
    have hX : WEXITSTATUS (c * 256) = c := by
      simp only [WEXITSTATUS]
      omega
    simp [wait_impl, cvt_r, cvtCall, hp1, hp0, hE, hX]
  · have hE : WIFEXITED n = false := by
      simp only [WIFEXITED, beq_eq_false_iff_ne, ne_eq]
      omega
    have hS : WIFSIGNALED n = true := wifsignaled_of_sig n hn1 hn2
    have hT : WTERMSIG n = n := by
      simp only [WTERMSIG]
      omega
    simp [wait_impl, cvt_r, cvtCall, hp1, hp0, hE, hS, hT]

/-- Witness for C6: `waitpid` returns pid 77 with status word `42 << 8`
(normal exit, code 42) and, separately, status word 9 (killed by SIGKILL);
the decoded status values are 42 and 9. -/
theorem wait_impl_exit_signal_witness :
    wait_impl 0 [⟨77, 42 * 256, ⟨EKind.other 0, none⟩⟩] =
      some (Except.ok (some 42)) ∧
    wait_impl 0 [⟨77, 9, ⟨EKind.other 0, none⟩⟩] =
      some (Except.ok (some 9)) :=
  wait_impl_exit_signal 77 42 9 ⟨EKind.other 0, none⟩ 0 (by decide) (by decide)
    (by decide) (by decide) (by decide)

/-- Claim C7: on the unix backend, `kill` on a handle whose status is not yet
cached performs the kill syscall; if it fails and `errno` is `ESRCH` the
error is absorbed as success, any other error is propagated (first
conjunct), and a successful syscall is success (second conjunct). -/
theorem kill_unix_esrch (c : Child) (e : OsError) (hs : c.status = none) :
    Child.kill c (kill_unix ⟨-1, e⟩) =
      ((if e.raw = some ESRCH then Except.ok () else Except.error e), c, 1) ∧
    Child.kill c (kill_unix ⟨0, e⟩) = (Except.ok (), c, 1) := by
  constructor
  · by_cases h : e.raw = some ESRCH <;>
      simp [Child.kill, kill_unix, kill_impl, hs, h]
  · simp [Child.kill, kill_unix, kill_impl, hs]

/-- Witness for C7: an uncached handle; `errno = ESRCH` (3) is absorbed as
success, `errno = EACCES` (13) is propagated. -/
theorem kill_unix_esrch_witness :
    Child.kill ⟨3, none, none⟩ (kill_unix ⟨-1, ⟨EKind.other 0, some 3⟩⟩) =
      (Except.ok (), ⟨3, none, none⟩, 1) ∧
    Child.kill ⟨3, none, none⟩ (kill_unix ⟨-1, ⟨EKind.other 0, some 13⟩⟩) =
      (Except.error ⟨EKind.other 0, some 13⟩, ⟨3, none, none⟩, 1) :=
  ⟨((kill_unix_esrch ⟨3, none, none⟩ ⟨EKind.other 0, some 3⟩ rfl).1).trans rfl,
    ((kill_unix_esrch ⟨3, none, none⟩ ⟨EKind.other 0, some 13⟩ rfl).1).trans rfl⟩

/-- Claim C9: on the unix backend, `cvt_r` retries an interrupted syscall
(second conjunct) and never returns an interrupted error (first conjunct);
consequently neither `wait_impl` with any flags, nor `wait`, nor `try_wait`
ever surfaces an interrupted error (remaining conjuncts). -/
theorem cvt_r_no_interrupted (calls rest : List WaitpidCall) (x : WaitpidCall)
    (e : OsError) (F : Int) :
    (cvt_r calls = some (Except.error e) → is_interrupted e = false) ∧
    (cvtCall x = Except.error e → is_interrupted e = true →
      cvt_r (x :: rest) = cvt_r rest) ∧
    (wait_impl F calls = some (Except.error e) → is_interrupted e = false) ∧
    (wait_unix calls = some (Except.error e) → is_interrupted e = false) ∧
    (try_wait_unix calls = some (Except.error e) → is_interrupted e = false) := by
  have main : ∀ cs : List WaitpidCall,
      cvt_r cs = some (Except.error e) → is_interrupted e = false := by
    intro cs
    induction cs with
    | nil =>
      intro h
      simp [cvt_r] at h
    | cons y ys ih =>
      intro h
      cases hy : cvtCall y with
      | error e2 =>
        simp only [cvt_r, hy] at h
        split at h
        · exact ih h
        · rename_i hni
          simp only [Option.some.injEq, Except.error.injEq] at h
          subst h
          simpa using hni
      | ok v =>
        simp [cvt_r, hy] at h
  have mainW : ∀ (F2 : Int) (cs : List WaitpidCall),
      wait_impl F2 cs = some (Except.error e) → is_interrupted e = false := by
    intro F2 cs h
    cases hcv : cvt_r cs with
    | none =>
      simp [wait_impl, hcv] at h
    | some r =>
      cases r with
      | error e2 =>
        simp only [wait_impl, hcv, Option.some.injEq, Except.error.injEq] at h
        subst h
        exact main cs hcv
      | ok v =>
        rcases v with ⟨pid, sw⟩
        simp only [wait_impl, hcv] at h
        split_ifs at h <;> simp at h
  refine ⟨main calls, ?_, mainW F calls, ?_, mainW WNOHANG calls⟩
  · intro hx hi
    simp [cvt_r, hx, hi]
  · intro h
    cases hw : wait_impl 0 calls with
    | none =>
      simp [wait_unix, hw] at h
    | some r =>
      cases r with
      | error e2 =>
        simp [wait_unix, hw, Except.map] at h
        subst h
        exact mainW 0 calls hw
      | ok v =>
        simp [wait_unix, hw, Except.map] at h

/-- Witness for C9: a trace in which `waitpid` first fails with `EINTR` and
then with a real error (`ECHILD`, 10): `cvt_r` skips the interrupted outcome
and the surfaced error is not an interrupted one. -/
theorem cvt_r_no_interrupted_witness :
    (is_interrupted ⟨EKind.other 0, some 10⟩ = false) ∧
    (cvt_r [⟨-1, 0, ⟨EKind.interrupted, some 4⟩⟩, ⟨-1, 0, ⟨EKind.other 0, some 10⟩⟩] =
      cvt_r [⟨-1, 0, ⟨EKind.other 0, some 10⟩⟩]) :=
  ⟨(cvt_r_no_interrupted
      [⟨-1, 0, ⟨EKind.interrupted, some 4⟩⟩, ⟨-1, 0, ⟨EKind.other 0, some 10⟩⟩]
      [] ⟨-1, 0, ⟨EKind.other 0, some 10⟩⟩ ⟨EKind.other 0, some 10⟩ 0).1 rfl,
    (cvt_r_no_interrupted [] [⟨-1, 0, ⟨EKind.other 0, some 10⟩⟩]
      ⟨-1, 0, ⟨EKind.interrupted, some 4⟩⟩ ⟨EKind.interrupted, some 4⟩ 0).2.1
      rfl rfl⟩

/-- Claim C10: on the unix backend, the blocking `wait` returns the sentinel
-1 as an ordinary success both when the observed status word is neither a
normal exit nor a signal termination (first conjunct) and when `waitpid`
yields no status (returns 0, the absent case mapped by `unwrap_or(-1)`,
second conjunct). -/
theorem wait_unix_sentinel (pid : Int) (s s2 : Nat) (e : OsError)
    (hp1 : pid ≠ -1) (hp0 : pid ≠ 0)
    (hE : WIFEXITED s = false) (hS : WIFSIGNALED s = false) :
    wait_unix [⟨pid, s, e⟩] = some (Except.ok (-1)) ∧
    wait_unix [⟨0, s2, e⟩] = some (Except.ok (-1)) := by
  constructor
  · simp [wait_unix, wait_impl, cvt_r, cvtCall, hp1, hp0, hE, hS, Except.map]
  · simp [wait_unix, wait_impl, cvt_r, cvtCall, Except.map]

/-- Witness for C10 at the status word `0x7f` (a stopped-process
indication, neither exited nor signaled): `wait` returns `ok (-1)`. -/
theorem wait_unix_sentinel_witness :
    wait_unix [⟨33, 127, ⟨EKind.other 0, none⟩⟩] = some (Except.ok (-1)) ∧
    wait_unix [⟨0, 0, ⟨EKind.other 0, none⟩⟩] = some (Except.ok (-1)) :=
  wait_unix_sentinel 33 127 0 ⟨EKind.other 0, none⟩ (by decide) (by decide)
    (by decide) (by decide)

/-- Claim C4 (evaluation at the failing input): `TerminateProcess` fails
with access-denied while the process is still running, so the disambiguating
non-blocking wait returns `ok none` — it does **not** observe the process's
exit — yet `kill` still returns success instead of propagating the
access-denied error, because the source only tests `try_wait(child).is_err()`
and `Ok(None)` is not an error. -/
theorem kill_win_access_denied_still_running :
    try_wait_win WaitEvt.timeout0 (Except.ok 0) = Except.ok none ∧
    kill_win (Except.error ⟨ACCESS_DENIED_HRESULT⟩) WaitEvt.timeout0
      (Except.ok 0) = Except.ok () := by
  constructor
  · rfl
  · rfl


/-- Helper: `set_all` leaves a handle value that is not in the snapshot
untouched. -/
lemma set_all_not_mem (b : Bool) (v : Nat) :
    ∀ (handles : List HandleEntry) (t : HandleTable),
      v ∉ handles.map HandleEntry.value → set_all handles b t v = t v := by
  intro handles
  induction handles with
  | nil =>
    intro t hv
    rfl
  | cons x xs ih =>
    intro t hv
    simp only [List.map_cons, List.mem_cons, not_or] at hv
    have step : set_all (x :: xs) b t =
        set_all xs b (fun v2 =>
          if v2 = x.value then make_inheritable x b else t v2) := rfl
    rw [step, ih _ hv.2]
    exact if_neg hv.1

/-- Helper: after `set_all`, a snapshotted handle (with handle values
pairwise distinct) holds exactly the flags `make_inheritable` computes. -/
lemma set_all_mem (b : Bool) (h : HandleEntry) :
    ∀ (handles : List HandleEntry) (t : HandleTable),
      h ∈ handles → (handles.map HandleEntry.value).Nodup →
      set_all handles b t h.value = make_inheritable h b := by
  intro handles
  induction handles with
  | nil =>
    intro t hm _
    cases hm
  | cons x xs ih =>
    intro t hm hnd
    simp only [List.map_cons, List.nodup_cons] at hnd
    have step : set_all (x :: xs) b t =
        set_all xs b (fun v2 =>
          if v2 = x.value then make_inheritable x b else t v2) := rfl
    rw [step]
    rcases List.mem_cons.mp hm with hx | hx
    · subst hx
      rw [set_all_not_mem b h.value xs _ hnd.1]
      exact if_pos rfl
    · exact ih _ hx hnd.2

/-- Claim C5: on the Windows backend, `fork` restores every snapshotted
handle's flags — in particular its inheritable attribute — to the value
recorded in the snapshot, on all three outcomes of `NtCreateUserProcess`
alike (the restore loop precedes the branch): if the OS table agreed with
the snapshot before the call, the handle's flags after `fork` equal the
flags before it (first conjunct), and a handle whose inheritable attribute
was clear before the call has it clear after it (second conjunct). -/
theorem fork_win_restores (handles : List HandleEntry)
    (outcome : CreateOutcome) (t0 : HandleTable) (h : HandleEntry)
    (hm : h ∈ handles) (hnd : (handles.map HandleEntry.value).Nodup)
    (ht0 : t0 h.value = make_inheritable h false) :
    ((fork_win handles outcome t0).1 h.value = t0 h.value) ∧
    (h.attrs &&& OBJ_INHERIT = 0 →
      ((fork_win handles outcome t0).1 h.value).Inherit = 0) := by
  have hfinal : (fork_win handles outcome t0).1 h.value =
      make_inheritable h false := by
    cases outcome <;>
      exact set_all_mem false h handles (set_all handles true t0) hm hnd
  constructor
  · rw [hfinal, ht0]
  · intro hz
    rw [hfinal]
    simp [make_inheritable, hz]

/-- Witness for C5: a two-handle snapshot (handle 5 not inheritable,
handle 7 with attributes 3, hence inheritable); on each of the three
outcomes handle 5's flags are back to their original cleared state. -/
theorem fork_win_restores_witness :
    ((fork_win [⟨5, 0⟩, ⟨7, 3⟩] CreateOutcome.cloned
        (fun _ => ⟨0, 0⟩)).1 5 = ⟨0, 0⟩) ∧
    ((fork_win [⟨5, 0⟩, ⟨7, 3⟩] (CreateOutcome.errorStatus 5)
        (fun _ => ⟨0, 0⟩)).1 5 = ⟨0, 0⟩) ∧
    ((fork_win [⟨5, 0⟩, ⟨7, 3⟩] (CreateOutcome.created 9)
        (fun _ => ⟨0, 0⟩)).1 5 = ⟨0, 0⟩) ∧
    (((fork_win [⟨5, 0⟩, ⟨7, 3⟩] CreateOutcome.cloned
        (fun _ => ⟨0, 0⟩)).1 5).Inherit = 0) :=
  ⟨(fork_win_restores [⟨5, 0⟩, ⟨7, 3⟩] CreateOutcome.cloned (fun _ => ⟨0, 0⟩)
      ⟨5, 0⟩ (by decide) (by decide) rfl).1.trans rfl,
    (fork_win_restores [⟨5, 0⟩, ⟨7, 3⟩] (CreateOutcome.errorStatus 5)
      (fun _ => ⟨0, 0⟩) ⟨5, 0⟩ (by decide) (by decide) rfl).1.trans rfl,
    (fork_win_restores [⟨5, 0⟩, ⟨7, 3⟩] (CreateOutcome.created 9)
      (fun _ => ⟨0, 0⟩) ⟨5, 0⟩ (by decide) (by decide) rfl).1.trans rfl,
    (fork_win_restores [⟨5, 0⟩, ⟨7, 3⟩] CreateOutcome.cloned (fun _ => ⟨0, 0⟩)
      ⟨5, 0⟩ (by decide) (by decide) rfl).2 rfl⟩

end Cutlery
